import Mathlib

/-!
Shallow embedding of `src/decision_engine.py` (class `SupplyChainAI`):
the dataset-loading cascade, the risk model, the query classifier
(`_analyze_data`), the recommendation fallback (`_get_ai_recommendation`),
the chart aggregation (`_create_charts`) and the orchestrator
(`analyze_situation`).

Modelling conventions:
- pandas float columns are modelled as `ℚ` (the claims are about exact
  comparisons and exact arithmetic identities, all at rational points);
- a dataframe with the canonical column schema is a `List Record`;
- network calls and the random draws of the loaders are inputs of the
  embedding (an abstract stream of drawn values / an abstract call outcome);
- `np.where(c, a/b, 0)` never faults in numpy (it yields a value selected
  by `c`); in the embedding the same selection is an `if`.
-/

set_option autoImplicit false

namespace SupplyChain

/-- One row of the canonical dataframe schema assembled by
`load_supply_data` / `_create_synthetic_data`: the identifier, raw and
derived columns of `decision_engine.py` lines 114-116.  Field names keep
the source's column names. -/
structure Record where
  Supplier : String
  Product : String
  Location : String
  Current_Stock : ℚ
  Min_Stock : ℚ
  Lead_Time_Days : ℚ
  Cost_Per_Unit : ℚ
  Quality_Rating : ℚ
  Last_Delivery : String
  Stock_Risk : ℚ
  Lead_Time_Risk : ℚ
  Quality_Risk : ℚ
  Overall_Risk : ℚ
deriving DecidableEq

/-- `np.where(Current_Stock < Min_Stock, (Min_Stock - Current_Stock) / Min_Stock, 0)`
(lines 103-107 and 164-165): the stock-risk formula shared by both
computing branches. -/
def stockRisk (cur mins : ℚ) : ℚ :=
  if cur < mins then (mins - cur) / mins else 0

/-- `(5.0 - Quality_Rating) / 2.0` (lines 110 and 167). -/
def qualityRisk (q : ℚ) : ℚ := (5 - q) / 2

/-- `(Stock_Risk + Lead_Time_Risk + Quality_Risk) / 3` (lines 111 and 168). -/
def overallRisk (s l q : ℚ) : ℚ := (s + l + q) / 3

/-- `Series.clip(lo, hi)` on one value. -/
def clipQ (x lo hi : ℚ) : ℚ := min (max x lo) hi

/-! ### Dataset loading cascade (`load_supply_data`, lines 18-137)

The cascade has three outcomes.  Primary source (line 30-32): the fetched
CSV is parsed and stored as-is — `self.supply_data = pd.read_csv(...)` — with
no renaming, no derived-column computation and no row cap.  Secondary
source (the DataCo dataset, lines 40-119): rows are remapped, missing
fields synthesized, derived risks computed with lead-time divisor 25, and
the frame truncated with `.head(200)`.  Synthetic fallback (lines 139-170):
exactly `n_records = 200` generated rows with derived risks computed with
lead-time divisor 40.  The random draws of both generating branches are
abstract inputs here. -/

/-- One row of the DataCo dataset after the fixed column renaming
(lines 51-63), restricted to the columns the code reads.  The real DataCo
file carries `Order Item Quantity`, `Days for shipping (real)`,
`Product Price`, `Late_delivery_risk` and `Category Name`, so the
random-fill branches for a missing `Current_Stock` / `Lead_Time_Days`
column (lines 81-85) do not run; `categoryName` is `none` on a null
(NaN) category cell.  `lastDeliveryDraw` is the row's weighted random
draw of line 99. -/
structure DatacoRow where
  productName : String
  categoryName : Option String
  customerCountry : String
  orderItemQuantity : ℚ
  daysForShipping : ℚ
  productPrice : ℚ
  lateDeliveryRisk : ℚ
  lastDeliveryDraw : String
deriving DecidableEq

/-- The category → supplier table of lines 67-73. -/
def supplierMapping : List (String × String) :=
  [("Technology", "TechCorp Global"),
   ("Electronics", "EliteElectronics"),
   ("Industrial", "GlobalManufacturing"),
   ("Hardware", "IndustrialParts Inc"),
   ("Software", "SoftwareSolutions")]

/-- `supplier_mapping.get(x, 'Generic Supplier') if pd.notna(x) else 'Unknown Supplier'`
(lines 74-76). -/
def mapSupplier : Option String → String
  | none => "Unknown Supplier"
  | some c =>
    match supplierMapping.lookup c with
    | some s => s
    | none => "Generic Supplier"

/-- Lines 88-119: assemble one canonical record from a DataCo row.
`Min_Stock = Current_Stock * 0.3`;
`Quality_Rating = clip(5.0 - Late_Delivery_Risk * 2, 3.0, 5.0)`;
risk columns by the formulas of lines 103-111 (lead-time divisor 25). -/
def mkDatacoRecord (row : DatacoRow) : Record :=
  let currentStock := row.orderItemQuantity
  let minStock := currentStock * (3/10)
  let quality := clipQ (5 - row.lateDeliveryRisk * 2) 3 5
  let sRisk := stockRisk currentStock minStock
  let lRisk := (row.daysForShipping - 5) / 25
  let qRisk := qualityRisk quality
  { Supplier := mapSupplier row.categoryName
    Product := row.productName
    Location := row.customerCountry
    Current_Stock := currentStock
    Min_Stock := minStock
    Lead_Time_Days := row.daysForShipping
    Cost_Per_Unit := row.productPrice
    Quality_Rating := quality
    Last_Delivery := row.lastDeliveryDraw
    Stock_Risk := sRisk
    Lead_Time_Risk := lRisk
    Quality_Risk := qRisk
    Overall_Risk := overallRisk sRisk lRisk qRisk }

/-- The raw random draws of one synthetic row (lines 149-159): each field
drawn from the fixed vocabularies / numeric ranges under `np.random.seed(42)`. -/
structure SynthRaw where
  supplier : String
  product : String
  location : String
  currentStock : ℚ
  minStock : ℚ
  leadTimeDays : ℚ
  costPerUnit : ℚ
  qualityRating : ℚ
  lastDelivery : String
deriving DecidableEq

/-- Lines 161-170: one synthetic record with risk columns computed by the
formulas of lines 164-168 (lead-time divisor 40). -/
def mkSynthRecord (r : SynthRaw) : Record :=
  let sRisk := stockRisk r.currentStock r.minStock
  let lRisk := (r.leadTimeDays - 5) / 40
  let qRisk := qualityRisk r.qualityRating
  { Supplier := r.supplier
    Product := r.product
    Location := r.location
    Current_Stock := r.currentStock
    Min_Stock := r.minStock
    Lead_Time_Days := r.leadTimeDays
    Cost_Per_Unit := r.costPerUnit
    Quality_Rating := r.qualityRating
    Last_Delivery := r.lastDelivery
    Stock_Risk := sRisk
    Lead_Time_Risk := lRisk
    Quality_Risk := qRisk
    Overall_Risk := overallRisk sRisk lRisk qRisk }

/-- `_create_synthetic_data` (lines 139-170): `n_records = 200` rows built
from the abstract stream `gen` of random draws. -/
def createSyntheticData (gen : ℕ → SynthRaw) : List Record :=
  (List.range 200).map (fun i => mkSynthRecord (gen i))

/-- Which branch of the `load_supply_data` cascade ran, with that branch's
input data: `primary` holds the dataframe parsed from the primary CSV
(line 32, stored unmodified), `dataco` holds the renamed DataCo rows
(branch of lines 47-119, which requires the `Product Name` marker column),
`synthetic` holds the random stream of `_create_synthetic_data`. -/
inductive LoadOutcome where
  | primary (table : List Record)
  | dataco (rows : List DatacoRow)
  | synthetic (gen : ℕ → SynthRaw)

/-- `load_supply_data`: the dataset stored in `self.supply_data` at return,
per cascade branch.  The DataCo branch applies `.head(200)` (line 119);
the primary branch stores the parsed frame as-is (line 32); the synthetic
branch stores the 200 generated rows (line 170). -/
def loadSupplyData : LoadOutcome → List Record
  | .primary table => table
  | .dataco rows => (rows.map mkDatacoRecord).take 200
  | .synthetic gen => createSyntheticData gen

/-! ### Query classifier (`_analyze_data`, lines 225-258) -/

/-- Does `sub` start `s`?  (Char-list embedding of a string prefix test.) -/
def startsWithChars : List Char → List Char → Bool
  | [], _ => true
  | _ :: _, [] => false
  | a :: as, b :: bs => a == b && startsWithChars as bs

/-- Is `sub` a contiguous substring of `s`?  Embedding of Python's
`sub in s` on strings. -/
def hasSubstrChars : List Char → List Char → Bool
  | sub, [] => sub.isEmpty
  | sub, c :: cs => startsWithChars sub (c :: cs) || hasSubstrChars sub cs

/-- `kw in query.lower()` (line 228 computes `query_lower = query.lower()`;
the keywords of lines 233-239 are lowercase literals).  Lowercasing is
per-character, which agrees with Python on the ASCII queries at issue. -/
def queryHas (query kw : String) : Bool :=
  hasSubstrChars kw.toList (query.toList.map Char.toLower)

/-- One entry of `focus_items` (line 257): a record projected to the
available columns among `['Supplier', 'Product', 'Overall_Risk']`, all of
which exist in the canonical schema. -/
structure FocusItem where
  Supplier : String
  Product : String
  Overall_Risk : ℚ
deriving DecidableEq

/-- `Series.mean()`: pandas mean of a column.  (On an empty frame pandas
yields NaN; the embedding yields `0/0 = 0`.  No claim touches that case.) -/
def listMean (l : List ℚ) : ℚ := l.sum / l.length

/-- The dict returned by `_analyze_data` (lines 250-258). -/
structure Analysis where
  focus_area : String
  total_items : ℕ
  high_risk_count : ℕ
  critical_stock_count : ℕ
  avg_lead_time : ℚ
  avg_quality : ℚ
  focus_items : List FocusItem
deriving DecidableEq

/-- `_analyze_data` (lines 225-258).  `high_risk` and `critical_stock` are
computed over the full frame before branching (lines 230-231; the schema
always carries `Stock_Risk`, so the `in df.columns` guard holds); the
`if/elif` chain of lines 233-244 picks the focus frame and label;
`critical_stock_count` is `len(critical_stock) if not critical_stock.empty else 0`
(line 254); `focus_items` is `focus_data[focus_cols].head(5).to_dict('records')`
(line 257). -/
def analyzeData (df : List Record) (query : String) : Analysis :=
  let highRisk := df.filter (fun r => decide ((6:ℚ)/10 < r.Overall_Risk))
  let criticalStock := df.filter (fun r => decide ((1:ℚ)/2 < r.Stock_Risk))
  let p : List Record × String :=
    if queryHas query "stock" || queryHas query "inventory" then
      (if criticalStock.isEmpty then highRisk else criticalStock, "Stock Levels")
    else if queryHas query "quality" then
      (df.filter (fun r => decide (r.Quality_Rating < 4)), "Quality Issues")
    else if queryHas query "delay" || queryHas query "lead time" then
      (df.filter (fun r => decide ((20:ℚ) < r.Lead_Time_Days)), "Lead Time Issues")
    else
      (highRisk, "Overall Risk")
  { focus_area := p.2
    total_items := df.length
    high_risk_count := highRisk.length
    critical_stock_count := if criticalStock.isEmpty then 0 else criticalStock.length
    avg_lead_time := listMean (df.map (·.Lead_Time_Days))
    avg_quality := listMean (df.map (·.Quality_Rating))
    focus_items := (p.1.take 5).map
      (fun r => { Supplier := r.Supplier, Product := r.Product, Overall_Risk := r.Overall_Risk }) }

/-! ### Recommendation fallback (`_get_ai_recommendation`, lines 260-304) -/

/-- What the one external generator call would do, were it made: return a
completion text, or raise (timeout, auth failure, malformed response —
including an empty `content` list, whose `content[0]` raises and is caught
by the bare `except`). -/
inductive CallOutcome where
  | success (text : String)
  | failure
deriving DecidableEq

/-- The no-credential template of lines 299-302, parameterized only by
`analysis['focus_area']`. -/
def noCredTemplate (focusArea : String) : String :=
  "**RECOMMENDATION:** Address " ++ focusArea ++
    " issues immediately\n**PRIORITY:** High\n**EXPECTED IMPACT:** Reduce supply chain disruption by 25%\n**NEXT STEPS:** 1) Contact alternative suppliers 2) Review safety stock levels"

/-- The generic error template of line 304. -/
def errorTemplate : String :=
  "**RECOMMENDATION:** Review supplier performance data\n**PRIORITY:** Medium\n**EXPECTED IMPACT:** Improved supply chain reliability\n**NEXT STEPS:** 1) Analyze trends 2) Contact suppliers"

/-- `_get_ai_recommendation` (lines 290-304), returning the text together
with the number of network calls attempted.  `api_key` truthiness is the
Bool `apiKeyPresent` (env var absent ⇒ `""` ⇒ falsy); with a key the call
is attempted (one network call) and its text returned verbatim on success,
the `except` template on any raise; with no key no call is made and the
focus-area template is returned. -/
def getAiRecommendation (apiKeyPresent : Bool) (outcome : CallOutcome)
    (focusArea : String) : String × ℕ :=
  if apiKeyPresent then
    match outcome with
    | .success t => (t, 1)
    | .failure => (errorTemplate, 1)
  else
    (noCredTemplate focusArea, 0)

/-! ### Chart aggregation (`_create_charts`, lines 306-354) -/

/-- The three labels of the `pd.cut` of line 312. -/
inductive RiskBucket where
  | Low
  | Medium
  | High
deriving DecidableEq

/-- `pd.cut(x, bins=[0, 0.3, 0.6, 1.0], labels=['Low','Medium','High'])`
on one value (line 312).  pandas `cut` defaults to `right=True` without
`include_lowest`, so the intervals are the right-closed
`(0, 0.3], (0.3, 0.6], (0.6, 1.0]`; a value outside `(0, 1]` gets NaN
(`none`), and `value_counts` then ignores it. -/
def cutRisk (x : ℚ) : Option RiskBucket :=
  if 0 < x ∧ x ≤ 3/10 then some .Low
  else if 3/10 < x ∧ x ≤ 6/10 then some .Medium
  else if 6/10 < x ∧ x ≤ 1 then some .High
  else none

/-- The per-bucket count of `risk_levels.value_counts()` (line 313). -/
def riskBucketCount (df : List Record) (b : RiskBucket) : ℕ :=
  df.countP (fun r => decide (cutRisk r.Overall_Risk = some b))

/-- String insertion sort (pandas `groupby` sorts group keys). -/
def insertSorted (s : String) : List String → List String
  | [] => [s]
  | t :: ts => if s < t then s :: t :: ts else t :: insertSorted s ts

/-- Sort a list of strings. -/
def sortStrings : List String → List String
  | [] => []
  | s :: ss => insertSorted s (sortStrings ss)

/-- `df.groupby('Supplier').agg({'Overall_Risk': 'mean'}).reset_index().head(8)`
(lines 331-336): the sorted distinct suppliers, each with its mean
`Overall_Risk`, first 8 kept. -/
def supplierStats (df : List Record) : List (String × ℚ) :=
  ((sortStrings ((df.map (·.Supplier)).dedup)).map
    (fun s => (s, listMean ((df.filter (fun r => decide (r.Supplier = s))).map (·.Overall_Risk))))).take 8

/-- The two aggregates handed to the external chart library by
`_create_charts` — the bucket counts behind `risk_pie` and the supplier
series behind `supplier_bar`.  (The canonical schema always has the
`Overall_Risk` and `Supplier` columns, so the fallback-chart branches of
lines 322-327 and 344-352 do not run.) -/
structure Charts where
  low_count : ℕ
  medium_count : ℕ
  high_count : ℕ
  supplier_series : List (String × ℚ)
deriving DecidableEq

/-- `_create_charts` (lines 306-354) as the pure aggregation it feeds to
the chart library. -/
def createCharts (df : List Record) : Charts :=
  { low_count := riskBucketCount df .Low
    medium_count := riskBucketCount df .Medium
    high_count := riskBucketCount df .High
    supplier_series := supplierStats df }

/-! ### Orchestrator (`analyze_situation`, lines 209-223) -/

/-- The dict returned by `analyze_situation`: either the error dict
`{"error": "No supply data loaded"}` (line 212, the only key present), or
the success dict of lines 218-223 whose `error` key is `False`. -/
inductive AnalyzeResult where
  | err (msg : String)
  | ok (recommendation : String) (analysis : Analysis) (charts : Charts)
deriving DecidableEq

/-- `analyze_situation` (lines 209-223), returning the result dict
together with the number of network calls attempted.  `supplyData` is the
`self.supply_data` singleton (`none` iff never loaded); `language` only
enters the prompt text, which is outside the modelled state. -/
def analyzeSituation (supplyData : Option (List Record)) (apiKeyPresent : Bool)
    (outcome : CallOutcome) (query : String) (_language : String) :
    AnalyzeResult × ℕ :=
  match supplyData with
  | none => (.err "No supply data loaded", 0)
  | some df =>
    let analysis := analyzeData df query
    let rc := getAiRecommendation apiKeyPresent outcome analysis.focus_area
    (.ok rc.1 analysis (createCharts df), rc.2)

/-! ### Spec-side definitions and concrete fixtures -/

/-- The candidate set as the spec (§4.3) words it, written independently of
`analyzeData` to compare the two: rule 1 `Stock_Risk > 0.5` with the
high-risk fallback when empty, rule 2 `Quality_Rating < 4.0`, rule 3
`Lead_Time_Days > 20`, default `Overall_Risk > 0.6`; first match wins. -/
def specCandidates (df : List Record) (query : String) : List Record :=
  if queryHas query "stock" || queryHas query "inventory" then
    if (df.filter (fun r => decide ((1:ℚ)/2 < r.Stock_Risk))).isEmpty then
      df.filter (fun r => decide ((6:ℚ)/10 < r.Overall_Risk))
    else
      df.filter (fun r => decide ((1:ℚ)/2 < r.Stock_Risk))
  else if queryHas query "quality" then
    df.filter (fun r => decide (r.Quality_Rating < 4))
  else if queryHas query "delay" || queryHas query "lead time" then
    df.filter (fun r => decide ((20:ℚ) < r.Lead_Time_Days))
  else
    df.filter (fun r => decide ((6:ℚ)/10 < r.Overall_Risk))

/-- A concrete record with the given composite risk, for evaluating the
aggregation at chosen `Overall_Risk` values. -/
def demoRecord (overall : ℚ) : Record :=
  { Supplier := "EliteParts USA"
    Product := "Circuit Breaker"
    Location := "Dallas TX"
    Current_Stock := 100
    Min_Stock := 30
    Lead_Time_Days := 10
    Cost_Per_Unit := 20
    Quality_Rating := 4
    Last_Delivery := "On Time"
    Stock_Risk := 0
    Lead_Time_Risk := 0
    Quality_Risk := 0
    Overall_Risk := overall }

/-- A record whose stored `Overall_Risk` is not the mean of its sub-risks:
what a primary-source CSV row may carry, since that branch stores the
parsed frame unmodified. -/
def externalRecord : Record :=
  { Supplier := "Acme Corp"
    Product := "Widget"
    Location := "Berlin"
    Current_Stock := 10
    Min_Stock := 40
    Lead_Time_Days := 30
    Cost_Per_Unit := 5
    Quality_Rating := 2
    Last_Delivery := "Delayed"
    Stock_Risk := 0
    Lead_Time_Risk := 0
    Quality_Risk := 0
    Overall_Risk := 9/10 }

/-- A concrete record whose `Stock_Risk` exceeds 0.5, for exercising the
stock-focus candidate set. -/
def criticalRecord : Record :=
  { Supplier := "AsiaTech"
    Product := "Power Supply"
    Location := "Shanghai"
    Current_Stock := 10
    Min_Stock := 100
    Lead_Time_Days := 25
    Cost_Per_Unit := 50
    Quality_Rating := 3
    Last_Delivery := "Delayed"
    Stock_Risk := 9/10
    Lead_Time_Risk := 1/2
    Quality_Risk := 1
    Overall_Risk := 4/5 }

/-- A concrete DataCo row. -/
def demoDatacoRow : DatacoRow :=
  { productName := "Field Hockey Stick"
    categoryName := some "Technology"
    customerCountry := "Mexico"
    orderItemQuantity := 40
    daysForShipping := 6
    productPrice := 120
    lateDeliveryRisk := 1
    lastDeliveryDraw := "On Time" }

/-- One concrete draw of the synthetic generator. -/
def demoSynthRaw : SynthRaw :=
  { supplier := "TechCorp Mexico"
    product := "Industrial Relay"
    location := "Mexico City"
    currentStock := 60
    minStock := 150
    leadTimeDays := 35
    costPerUnit := 80
    qualityRating := 7/2
    lastDelivery := "Delayed" }

/-- `if l.isEmpty then 0 else l.length` is `l.length`. -/
theorem length_ite_isEmpty {α : Type} (l : List α) :
    (if l.isEmpty then 0 else l.length) = l.length := by
  cases l <;> simp

/-! ### Claim theorems -/

/-- C1, counterexample: the aggregation puts a record with
`Overall_Risk = 0.3` in the Low bucket (not Medium) and a record with
`Overall_Risk = 0.6` in the Medium bucket (not High): `pd.cut` defaults to
right-closed intervals, so each boundary value lands in the lower bucket,
contradicting the claim at both boundaries. -/
theorem C1_counterexample :
    (createCharts [demoRecord (3/10)]).medium_count = 0 ∧
    (createCharts [demoRecord (3/10)]).low_count = 1 ∧
    (createCharts [demoRecord (6/10)]).high_count = 0 ∧
    (createCharts [demoRecord (6/10)]).medium_count = 1 := by
  refine ⟨?_, ?_, ?_, ?_⟩ <;>
  · norm_num [createCharts, riskBucketCount, demoRecord, cutRisk, List.countP, List.countP.go]
    try decide

/-- C1, amended: bucketing uses the right-closed intervals `(0, 0.3]` Low,
`(0.3, 0.6]` Medium, `(0.6, 1.0]` High, so each boundary value 0.3 and 0.6
lands in the lower of its two adjacent buckets: a record with
`Overall_Risk = 0.3` is assigned to Low and one with `Overall_Risk = 0.6`
to Medium. -/
theorem C1_amended (x : ℚ) :
    cutRisk (3/10) = some RiskBucket.Low ∧
    cutRisk (6/10) = some RiskBucket.Medium ∧
    (0 < x → x ≤ 3/10 → cutRisk x = some RiskBucket.Low) ∧
    (3/10 < x → x ≤ 6/10 → cutRisk x = some RiskBucket.Medium) ∧
    (6/10 < x → x ≤ 1 → cutRisk x = some RiskBucket.High) := by
  refine ⟨by norm_num [cutRisk], by norm_num [cutRisk], ?_, ?_, ?_⟩
  · intro h1 h2
    unfold cutRisk
    rw [if_pos ⟨h1, h2⟩]
  · intro h1 h2
    have hn1 : ¬(0 < x ∧ x ≤ 3/10) := fun hc => absurd hc.2 (not_le.mpr h1)
    unfold cutRisk
    rw [if_neg hn1, if_pos ⟨h1, h2⟩]
  · intro h1 h2
    have hn1 : ¬(0 < x ∧ x ≤ 3/10) := fun hc => absurd hc.2 (by linarith)
    have hn2 : ¬(3/10 < x ∧ x ≤ 6/10) := fun hc => absurd hc.2 (not_le.mpr h1)
    unfold cutRisk
    rw [if_neg hn1, if_neg hn2, if_pos ⟨h1, h2⟩]

/-- Witness for C1_amended at interior points of each bucket. -/
theorem C1_witness :
    cutRisk (1/10) = some RiskBucket.Low ∧
    cutRisk (1/2) = some RiskBucket.Medium ∧
    cutRisk (9/10) = some RiskBucket.High :=
  ⟨(C1_amended (1/10)).2.2.1 (by norm_num) (by norm_num),
   (C1_amended (1/2)).2.2.2.1 (by norm_num) (by norm_num),
   (C1_amended (9/10)).2.2.2.2 (by norm_num) (by norm_num)⟩

/-- C10: the cut assigns no bucket to a composite risk that is ≤ 0
(including exactly 0) or > 1, and on a dataset holding one record with
`Overall_Risk = 0` the three bucket counts sum to 0, strictly less than
the dataset size 1. -/
theorem C10_none_bucket (x y : ℚ) (hx : x ≤ 0) (hy : 1 < y) :
    cutRisk x = none ∧ cutRisk y = none ∧
    (createCharts [demoRecord 0]).low_count + (createCharts [demoRecord 0]).medium_count +
      (createCharts [demoRecord 0]).high_count = 0 ∧
    [demoRecord 0].length = 1 := by
  refine ⟨?_, ?_, ?_, rfl⟩
  · unfold cutRisk
    split_ifs with h1 h2 h3
    · exact absurd h1.1 (by linarith)
    · exact absurd h2.1 (by linarith)
    · exact absurd h3.1 (by linarith)
    · rfl
  · unfold cutRisk
    split_ifs with h1 h2 h3
    · exact absurd h1.2 (by linarith)
    · exact absurd h2.2 (by linarith)
    · exact absurd h3.2 (by linarith)
    · rfl
  · norm_num [createCharts, riskBucketCount, demoRecord, cutRisk, List.countP, List.countP.go]
    try decide

/-- Witness for C10_none_bucket at `x = 0` and `y = 2`. -/
theorem C10_witness :
    cutRisk 0 = none ∧ cutRisk 2 = none :=
  ⟨(C10_none_bucket 0 2 le_rfl (by norm_num)).1,
   (C10_none_bucket 0 2 le_rfl (by norm_num)).2.1⟩

/-- C2, counterexample: when the primary source succeeds, the parsed CSV
is stored unmodified, so a 201-row primary frame leaves a stored dataset
of 201 > 200 records — the cap does not hold on that cascade branch. -/
theorem C2_counterexample :
    200 < (loadSupplyData (LoadOutcome.primary (List.replicate 201 (demoRecord 0)))).length := by
  rw [loadSupplyData, List.length_replicate]
  norm_num

/-- C2, amended: on the secondary (DataCo) branch the stored dataset has
at most 200 records, and on the synthetic branch exactly 200 (hence it is
non-empty there); the primary branch stores the fetched frame unchanged,
with no size cap and no non-emptiness guarantee. -/
theorem C2_amended (rows : List DatacoRow) (gen : ℕ → SynthRaw) (table : List Record) :
    (loadSupplyData (.dataco rows)).length ≤ 200 ∧
    (loadSupplyData (.synthetic gen)).length = 200 ∧
    loadSupplyData (.primary table) = table := by
  refine ⟨?_, ?_, rfl⟩
  · simp [loadSupplyData]
  · simp [loadSupplyData, createSyntheticData]

/-- C3, counterexample: on the primary branch derived fields are taken
from the external source, not recomputed: a stored record can carry
`Overall_Risk = 0.9` together with three zero sub-risks, so
`Overall_Risk` is not the mean of the sub-risks after `load()`. -/
theorem C3_counterexample :
    externalRecord ∈ loadSupplyData (.primary [externalRecord]) ∧
    externalRecord.Overall_Risk ≠
      (externalRecord.Stock_Risk + externalRecord.Lead_Time_Risk +
        externalRecord.Quality_Risk) / 3 := by
  constructor
  · simp [loadSupplyData]
  · norm_num [externalRecord]

/-- C3, amended: on the DataCo and synthetic branches every stored
record's derived fields are computed by the risk model from that record's
raw fields (with lead-time divisor 25 resp. 40) and `Overall_Risk` is the
mean of the three sub-risks; the primary branch stores the external frame
as-is with no recomputation. -/
theorem C3_amended (rows : List DatacoRow) (gen : ℕ → SynthRaw) (r : Record) :
    (r ∈ loadSupplyData (.dataco rows) →
      r.Stock_Risk = stockRisk r.Current_Stock r.Min_Stock ∧
      r.Lead_Time_Risk = (r.Lead_Time_Days - 5) / 25 ∧
      r.Quality_Risk = qualityRisk r.Quality_Rating ∧
      r.Overall_Risk = (r.Stock_Risk + r.Lead_Time_Risk + r.Quality_Risk) / 3) ∧
    (r ∈ loadSupplyData (.synthetic gen) →
      r.Stock_Risk = stockRisk r.Current_Stock r.Min_Stock ∧
      r.Lead_Time_Risk = (r.Lead_Time_Days - 5) / 40 ∧
      r.Quality_Risk = qualityRisk r.Quality_Rating ∧
      r.Overall_Risk = (r.Stock_Risk + r.Lead_Time_Risk + r.Quality_Risk) / 3) := by
  constructor
  · intro hr
    have hr' : r ∈ rows.map mkDatacoRecord := List.mem_of_mem_take hr
    obtain ⟨row, -, rfl⟩ := List.mem_map.mp hr'
    exact ⟨rfl, rfl, rfl, rfl⟩
  · intro hr
    have hr' : r ∈ (List.range 200).map (fun i => mkSynthRecord (gen i)) := hr
    obtain ⟨i, -, rfl⟩ := List.mem_map.mp hr'
    exact ⟨rfl, rfl, rfl, rfl⟩

/-- Witness for C3_amended: a record produced on the DataCo branch and one
produced on the synthetic branch both satisfy the mean identity. -/
theorem C3_witness :
    (mkDatacoRecord demoDatacoRow).Overall_Risk =
      ((mkDatacoRecord demoDatacoRow).Stock_Risk + (mkDatacoRecord demoDatacoRow).Lead_Time_Risk +
        (mkDatacoRecord demoDatacoRow).Quality_Risk) / 3 ∧
    (mkSynthRecord demoSynthRaw).Overall_Risk =
      ((mkSynthRecord demoSynthRaw).Stock_Risk + (mkSynthRecord demoSynthRaw).Lead_Time_Risk +
        (mkSynthRecord demoSynthRaw).Quality_Risk) / 3 :=
  ⟨((C3_amended [demoDatacoRow] (fun _ => demoSynthRaw) (mkDatacoRecord demoDatacoRow)).1
      (List.mem_cons_self _ _)).2.2.2,
   ((C3_amended [demoDatacoRow] (fun _ => demoSynthRaw) (mkSynthRecord demoSynthRaw)).2
      (List.mem_map.mpr ⟨0, List.mem_range.mpr (by norm_num), rfl⟩)).2.2.2⟩

/-- C7: with non-negative stocks, `Stock_Risk` is the shortfall ratio
`(Min_Stock − Current_Stock) / Min_Stock` exactly when the stock is below
the minimum (and then `Min_Stock > 0`, so the ratio is a true quotient:
multiplied back by `Min_Stock` it recovers the shortfall), it is 0
otherwise, and in particular it is 0 whenever `Min_Stock = 0` — the
division branch is never taken there, so no division fault can occur. -/
theorem C7_stock_risk (cur mins : ℚ) (hc : 0 ≤ cur) :
    (cur < mins → 0 < mins ∧ stockRisk cur mins * mins = mins - cur) ∧
    (¬ cur < mins → stockRisk cur mins = 0) ∧
    (mins = 0 → stockRisk cur mins = 0) := by
  refine ⟨?_, ?_, ?_⟩
  · intro h
    have hm : 0 < mins := lt_of_le_of_lt hc h
    refine ⟨hm, ?_⟩
    rw [stockRisk, if_pos h]
    exact div_mul_cancel₀ _ (ne_of_gt hm)
  · intro h
    rw [stockRisk, if_neg h]
  · intro h
    subst h
    rw [stockRisk, if_neg (not_lt.mpr hc)]

/-- Witness for C7_stock_risk: a genuine shortfall (2 below a minimum of
4) and the `Min_Stock = 0` edge case. -/
theorem C7_witness :
    ((0:ℚ) < 4 ∧ stockRisk 2 4 * 4 = 4 - 2) ∧ stockRisk 5 0 = 0 :=
  ⟨(C7_stock_risk 2 4 (by norm_num)).1 (by norm_num),
   (C7_stock_risk 5 0 (by norm_num)).2.2 rfl⟩

/-- The no-credential template is never the empty string: it starts with a
fixed non-empty literal. -/
theorem noCredTemplate_ne_empty (fa : String) : noCredTemplate fa ≠ "" := by
  intro h
  have h1 := (List.append_eq_nil.mp (congrArg String.data h)).1
  have h2 := (List.append_eq_nil.mp h1).1
  exact absurd h2 (by decide)

/-- The two hardcoded fallback templates are distinct for every focus
area: their first 28 characters already differ. -/
theorem noCredTemplate_ne_errorTemplate (fa : String) :
    noCredTemplate fa ≠ errorTemplate := by
  intro h
  have hd : ("**RECOMMENDATION:** Address " : String).data ++
      (fa.data ++ (" issues immediately\n**PRIORITY:** High\n**EXPECTED IMPACT:** Reduce supply chain disruption by 25%\n**NEXT STEPS:** 1) Contact alternative suppliers 2) Review safety stock levels" : String).data)
      = errorTemplate.data := by
    rw [← List.append_assoc]
    exact congrArg String.data h
  have ht : ("**RECOMMENDATION:** Address " : String).data = errorTemplate.data.take 28 := by
    have hl : ("**RECOMMENDATION:** Address " : String).data.length = 28 := by decide
    rw [← hd, ← hl, List.take_left]
  exact absurd ht (by decide)

/-- C4, counterexample: on a successful generator call the text is
returned verbatim, so an empty completion yields an empty recommendation —
the operation does not always return a non-empty string. -/
theorem C4_counterexample :
    (getAiRecommendation true (CallOutcome.success "") "Overall Risk").1 = "" := rfl

/-- C4, amended: the recommendation operation is total and three-tiered —
with no credential it makes no network call and returns the fixed
focus-area template with priority High (a non-empty string); with a
credential but a raised error it returns the distinct hardcoded Medium
template (non-empty); on success it returns the generator's text
verbatim, which is non-empty exactly when that text is. -/
theorem C4_amended (key : Bool) (outcome : CallOutcome) (fa t : String) :
    (key = false → getAiRecommendation key outcome fa = (noCredTemplate fa, 0)) ∧
    noCredTemplate fa ≠ "" ∧
    (key = true → outcome = CallOutcome.failure →
      getAiRecommendation key outcome fa = (errorTemplate, 1)) ∧
    errorTemplate ≠ "" ∧
    (key = true → outcome = CallOutcome.success t →
      getAiRecommendation key outcome fa = (t, 1)) ∧
    noCredTemplate fa ≠ errorTemplate := by
  refine ⟨?_, noCredTemplate_ne_empty fa, ?_, by decide, ?_, noCredTemplate_ne_errorTemplate fa⟩
  · rintro rfl
    rfl
  · rintro rfl rfl
    rfl
  · rintro rfl rfl
    rfl

/-- Witness for C4_amended: all three tiers at concrete inputs. -/
theorem C4_witness :
    getAiRecommendation false CallOutcome.failure "Stock Levels" = (noCredTemplate "Stock Levels", 0) ∧
    getAiRecommendation true CallOutcome.failure "Stock Levels" = (errorTemplate, 1) ∧
    getAiRecommendation true (CallOutcome.success "Use a second supplier.") "Stock Levels" =
      ("Use a second supplier.", 1) :=
  ⟨(C4_amended false CallOutcome.failure "Stock Levels" "").1 rfl,
   (C4_amended true CallOutcome.failure "Stock Levels" "").2.2.1 rfl rfl,
   (C4_amended true (CallOutcome.success "Use a second supplier.") "Stock Levels"
      "Use a second supplier.").2.2.2.2.1 rfl rfl⟩

/-- C5: whenever the lowercased query contains "stock" or "inventory",
the classified focus area is "Stock Levels" — the first rule of the
`if/elif` chain wins, whatever else the query contains. -/
theorem C5_focus_priority (df : List Record) (query : String)
    (h : queryHas query "stock" = true ∨ queryHas query "inventory" = true) :
    (analyzeData df query).focus_area = "Stock Levels" := by
  have hb : (queryHas query "stock" || queryHas query "inventory") = true := by
    rcases h with h | h <;> simp [h]
  simp [analyzeData, hb]

/-- Witness for C5_focus_priority: the spec's example query, which also
contains "quality", still classifies as "Stock Levels". -/
theorem C5_witness :
    queryHas "stock levels and quality issues" "stock" = true ∧
    queryHas "stock levels and quality issues" "quality" = true ∧
    (analyzeData [] "stock levels and quality issues").focus_area = "Stock Levels" :=
  ⟨by decide, by decide,
   C5_focus_priority [] "stock levels and quality issues" (Or.inl (by decide))⟩

/-- C6: for every query and dataset, `high_risk_count` counts the records
of the full dataset with `Overall_Risk > 0.6` and `critical_stock_count`
those with `Stock_Risk > 0.5`, independently of the matched focus branch. -/
theorem C6_counts (df : List Record) (query : String) :
    (analyzeData df query).high_risk_count =
      df.countP (fun r => decide ((6:ℚ)/10 < r.Overall_Risk)) ∧
    (analyzeData df query).critical_stock_count =
      df.countP (fun r => decide ((1:ℚ)/2 < r.Stock_Risk)) := by
  constructor
  · simp [analyzeData, List.countP_eq_length_filter]
  · rw [show (analyzeData df query).critical_stock_count =
        (if (df.filter (fun r => decide ((1:ℚ)/2 < r.Stock_Risk))).isEmpty then 0
         else (df.filter (fun r => decide ((1:ℚ)/2 < r.Stock_Risk))).length) from rfl,
      length_ite_isEmpty, List.countP_eq_length_filter]

/-- C8: with no dataset loaded, `analyze` returns exactly the error dict
`{error: "No supply data loaded"}` and attempts no network call; with any
dataset loaded it returns the success dict (recommendation, analysis,
charts, `error = False`), so the missing-dataset error is the only error
the pipeline surfaces. -/
theorem C8_no_data (key : Bool) (outcome : CallOutcome) (query language : String) :
    analyzeSituation none key outcome query language =
      (AnalyzeResult.err "No supply data loaded", 0) ∧
    ∀ df : List Record, ∃ rc a c,
      analyzeSituation (some df) key outcome query language =
        (AnalyzeResult.ok rc a c, if key then 1 else 0) := by
  refine ⟨rfl, fun df => ?_⟩
  refine ⟨(getAiRecommendation key outcome (analyzeData df query).focus_area).1,
    analyzeData df query, createCharts df, ?_⟩
  cases key <;> cases outcome <;> rfl

/-- C9: under the stock/inventory rule the candidate set is the records
with `Stock_Risk > 0.5`, falling back to the records with
`Overall_Risk > 0.6` when that set is empty; and on every branch
`focus_items` is the first 5 records of the (spec-worded) candidate set
projected to Supplier, Product and Overall_Risk. -/
theorem C9_candidates (df : List Record) (query : String)
    (h : queryHas query "stock" = true ∨ queryHas query "inventory" = true) :
    specCandidates df query =
      (if (df.filter (fun r => decide ((1:ℚ)/2 < r.Stock_Risk))).isEmpty then
        df.filter (fun r => decide ((6:ℚ)/10 < r.Overall_Risk))
      else
        df.filter (fun r => decide ((1:ℚ)/2 < r.Stock_Risk))) ∧
    ∀ q : String, (analyzeData df q).focus_items =
      ((specCandidates df q).take 5).map
        (fun r => { Supplier := r.Supplier, Product := r.Product, Overall_Risk := r.Overall_Risk }) := by
  constructor
  · have hb : (queryHas query "stock" || queryHas query "inventory") = true := by
      rcases h with h | h <;> simp [h]
    simp [specCandidates, hb]
  · intro q
    by_cases h1 : (queryHas q "stock" || queryHas q "inventory") = true
    · simp [analyzeData, specCandidates, h1]
    · by_cases h2 : queryHas q "quality" = true
      · simp [analyzeData, specCandidates, h1, h2]
      · by_cases h3 : (queryHas q "delay" || queryHas q "lead time") = true
        · simp [analyzeData, specCandidates, h1, h2, h3]
        · simp [analyzeData, specCandidates, h1, h2, h3]

/-- Witness for C9_candidates: a one-record dataset whose record has
`Stock_Risk > 0.5`, under a stock query. -/
theorem C9_witness :
    queryHas "stock audit" "stock" = true ∧
    (analyzeData [criticalRecord] "stock audit").focus_items =
      ((specCandidates [criticalRecord] "stock audit").take 5).map
        (fun r => { Supplier := r.Supplier, Product := r.Product, Overall_Risk := r.Overall_Risk }) :=
  ⟨by decide,
   (C9_candidates [criticalRecord] "stock audit" (Or.inl (by decide))).2 "stock audit"⟩

end SupplyChain
